import Mathlib

/-!
Verification of the SolarAutopilot decision pipeline: a shallow embedding of
the price provider (tibberService.js), the warning monitor (warningService.js),
the notification dispatcher (telegramService.js) and the charging decision
engine, together with proofs about the behaviours the specification claims.

Modelling conventions:
- JS numbers that carry prices, thresholds and telemetry are rationals.
- Timestamps are integers (milliseconds since epoch, as JS Date arithmetic).
- `Array.prototype.sort` with a consistent comparator is required to be a
  stable sort (ECMA-262); we embed it as `List.insertionSort`, which Mathlib
  proves stable, with the comparator as the relation.
- Fallible I/O (HTTP fetches, sink sends) is modelled by passing the outcome
  as an explicit argument; state mutation is explicit state passing.
-/

namespace SolarAutopilot

/-! ## Data model and operations

The embedded services: the price provider (tibberService.js), the warning
monitor (warningService.js), the notification dispatcher (telegramService.js)
and — modelled from the specification, since only its command documentation
is among the sources — the charging decision engine. -/

/-- A price point as cached by the provider: monetary fields in minor units
(hundredths) after ingestion, `level` the tariff band, `startsAt` in ms. -/
structure PricePoint where
  total : ℚ
  energy : ℚ
  tax : ℚ
  level : String
  startsAt : ℤ
  currency : String
  deriving Repr, DecidableEq

/-- The persisted Tibber configuration record (tibberService.js defaults). -/
structure TibberConfig where
  enabled : Bool
  apiKey : String
  homeId : String
  country : String
  timezone : String
  currency : String
  targetSoC : ℚ
  minimumSoC : ℚ
  maxPriceThreshold : Option ℚ
  usePriceLevels : Bool
  allowedPriceLevels : List String
  deriving Repr, DecidableEq

/-- The schema defaults created by `loadConfig` (Germany defaults). -/
def defaultTibberConfig : TibberConfig :=
  { enabled := false
    apiKey := ""
    homeId := ""
    country := "DE"
    timezone := "Europe/Berlin"
    currency := "EUR"
    targetSoC := 80
    minimumSoC := 20
    maxPriceThreshold := none
    usePriceLevels := true
    allowedPriceLevels := ["VERY_CHEAP", "CHEAP", "NORMAL"] }

/-- The nested `priceInfo` cache entry (current/today/tomorrow, converted). -/
structure PriceInfoCache where
  current : PricePoint
  today : List PricePoint
  tomorrow : List PricePoint
  deriving Repr, DecidableEq

/-- The in-memory price cache (`this.cache` of TibberService). -/
structure TibberCache where
  currentPrice : Option PricePoint
  priceInfo : Option PriceInfoCache
  forecast : List PricePoint
  consumption : Option ℚ
  timestamp : Option ℤ
  deriving Repr, DecidableEq

/-- Embeds `calculateAveragePrice(hours)`: mean of `total` over the first `hours`
forecast entries strictly after `now`; `none` when no future entries exist. -/
def calculateAveragePrice (cache : TibberCache) (now : ℤ) (hours : ℕ) : Option ℚ :=
  if cache.forecast = [] then none
  else
    let futureHours := (cache.forecast.filter (fun p => now < p.startsAt)).take hours
    if futureHours = [] then none
    else some ((futureHours.map (fun p => p.total)).sum / futureHours.length)

/-- Embeds `isPriceGood(currentPrice)`: the acceptability ladder of tibberService.js.
The explicit argument, when present, takes precedence over the cached price
(JS `currentPrice || this.cache.currentPrice`). -/
def isPriceGood (config : TibberConfig) (cache : TibberCache) (now : ℤ)
    (currentPrice : Option PricePoint) : Bool :=
  match (match currentPrice with | some p => some p | none => cache.currentPrice) with
  | none => false
  | some price =>
    if config.usePriceLevels then
      config.allowedPriceLevels.contains price.level
    else
      match calculateAveragePrice cache now 24 with
      | some avgPrice => decide (price.total < avgPrice)
      | none =>
        match config.maxPriceThreshold with
        | some threshold => decide (price.total ≤ threshold)
        | none => false

/-- The shape of one entry returned by `getCheapestHours`. -/
structure CheapHour where
  time : ℤ
  price : ℚ
  level : String
  deriving Repr, DecidableEq

/-- Embeds `getCheapestHours(count, hoursAhead)`: filter future entries, keep the
first `hoursAhead` of them, stable-sort ascending by `total`, take `count`. -/
def getCheapestHours (cache : TibberCache) (now : ℤ) (count hoursAhead : ℕ) :
    List CheapHour :=
  if cache.forecast = [] then []
  else
    let futureHours := (cache.forecast.filter (fun p => now < p.startsAt)).take hoursAhead
    ((futureHours.insertionSort (fun a b => a.total ≤ b.total)).take count).map
      (fun p => { time := p.startsAt, price := p.total, level := p.level })

/-- One row of `getSupportedCountries`. -/
structure Country where
  code : String
  name : String
  timezone : String
  currency : String
  flag : String
  deriving Repr, DecidableEq

/-- Embeds `getSupportedCountries()`: the static country table of tibberService.js. -/
def getSupportedCountries : List Country :=
  [ { code := "NO", name := "Norway", timezone := "Europe/Oslo", currency := "NOK", flag := "🇳🇴" },
    { code := "SE", name := "Sweden", timezone := "Europe/Stockholm", currency := "EUR", flag := "🇸🇪" },
    { code := "DK", name := "Denmark", timezone := "Europe/Copenhagen", currency := "DKK", flag := "🇩🇰" },
    { code := "FI", name := "Finland", timezone := "Europe/Helsinki", currency := "EUR", flag := "🇫🇮" },
    { code := "DE", name := "Germany", timezone := "Europe/Berlin", currency := "EUR", flag := "🇩🇪" },
    { code := "AT", name := "Austria", timezone := "Europe/Vienna", currency := "EUR", flag := "🇦🇹" },
    { code := "CH", name := "Switzerland", timezone := "Europe/Zurich", currency := "CHF", flag := "🇨🇭" },
    { code := "NL", name := "Netherlands", timezone := "Europe/Amsterdam", currency := "EUR", flag := "🇳🇱" },
    { code := "BE", name := "Belgium", timezone := "Europe/Brussels", currency := "EUR", flag := "🇧🇪" },
    { code := "FR", name := "France", timezone := "Europe/Paris", currency := "EUR", flag := "🇫🇷" },
    { code := "LU", name := "Luxembourg", timezone := "Europe/Luxembourg", currency := "EUR", flag := "🇱🇺" },
    { code := "GB", name := "United Kingdom", timezone := "Europe/London", currency := "GBP", flag := "🇬🇧" },
    { code := "IE", name := "Ireland", timezone := "Europe/Dublin", currency := "EUR", flag := "🇮🇪" },
    { code := "ES", name := "Spain", timezone := "Europe/Madrid", currency := "EUR", flag := "🇪🇸" },
    { code := "IT", name := "Italy", timezone := "Europe/Rome", currency := "EUR", flag := "🇮🇹" },
    { code := "PT", name := "Portugal", timezone := "Europe/Lisbon", currency := "EUR", flag := "🇵🇹" },
    { code := "GR", name := "Greece", timezone := "Europe/Athens", currency := "EUR", flag := "🇬🇷" },
    { code := "PL", name := "Poland", timezone := "Europe/Warsaw", currency := "PLN", flag := "🇵🇱" },
    { code := "CZ", name := "Czech Republic", timezone := "Europe/Prague", currency := "CZK", flag := "🇨🇿" },
    { code := "HU", name := "Hungary", timezone := "Europe/Budapest", currency := "HUF", flag := "🇭🇺" },
    { code := "RO", name := "Romania", timezone := "Europe/Bucharest", currency := "RON", flag := "🇷🇴" },
    { code := "EE", name := "Estonia", timezone := "Europe/Tallinn", currency := "EUR", flag := "🇪🇪" },
    { code := "LV", name := "Latvia", timezone := "Europe/Riga", currency := "EUR", flag := "🇱🇻" },
    { code := "LT", name := "Lithuania", timezone := "Europe/Vilnius", currency := "EUR", flag := "🇱🇹" } ]

/-- The embedding of JS `toUpperCase` (character-wise upper-casing; the
country codes at hand are ASCII). -/
def toUpperCase (s : String) : String :=
  String.mk (s.data.map Char.toUpper)

/-- Embeds `getCountrySettings(countryCode)`: lookup with Germany fallback; an empty
code (JS falsy) also falls back to Germany. -/
def getCountrySettings (countryCode : String) : Option Country :=
  let countries := getSupportedCountries
  if countryCode = "" then countries.find? (fun c => c.code = "DE")
  else
    let upperCode := toUpperCase countryCode
    match countries.find? (fun c => c.code = countryCode ∨ c.code = upperCode) with
    | some country => some country
    | none => countries.find? (fun c => c.code = "DE")

/-- A partial configuration update as received by `updateConfig`: absent
fields are `none` (JS `undefined`). -/
structure TibberConfigUpdate where
  enabled : Option Bool
  apiKey : Option String
  homeId : Option String
  country : Option String
  timezone : Option String
  currency : Option String
  targetSoC : Option ℚ
  minimumSoC : Option ℚ
  maxPriceThreshold : Option (Option ℚ)
  usePriceLevels : Option Bool
  allowedPriceLevels : Option (List String)
  deriving Repr, DecidableEq

/-- A wholly absent update (every field left out). -/
def emptyUpdate : TibberConfigUpdate :=
  { enabled := none, apiKey := none, homeId := none, country := none,
    timezone := none, currency := none, targetSoC := none, minimumSoC := none,
    maxPriceThreshold := none, usePriceLevels := none, allowedPriceLevels := none }

/-- Embeds `updateConfig(newConfig)`: a masked (`***`/`******`) or empty API key is
deleted from the update so the stored key survives; currency is auto-filled
from a supplied country when the update carries no (JS-truthy) currency; the
remaining update is spread-merged onto the existing config. -/
def updateConfig (config : TibberConfig) (newConfig : TibberConfigUpdate) : TibberConfig :=
  let newConfig :=
    if newConfig.apiKey = some "***" ∨ newConfig.apiKey = some "******" then
      { newConfig with apiKey := none }
    else if newConfig.apiKey = some "" then
      { newConfig with apiKey := none }
    else newConfig
  let newConfig :=
    match newConfig.country with
    | some c =>
      if c ≠ "" ∧ (newConfig.currency = none ∨ newConfig.currency = some "") then
        match getCountrySettings c with
        | some countryData => { newConfig with currency := some countryData.currency }
        | none => newConfig
      else newConfig
    | none => newConfig
  { enabled := newConfig.enabled.getD config.enabled
    apiKey := newConfig.apiKey.getD config.apiKey
    homeId := newConfig.homeId.getD config.homeId
    country := newConfig.country.getD config.country
    timezone := newConfig.timezone.getD config.timezone
    currency := newConfig.currency.getD config.currency
    targetSoC := newConfig.targetSoC.getD config.targetSoC
    minimumSoC := newConfig.minimumSoC.getD config.minimumSoC
    maxPriceThreshold := newConfig.maxPriceThreshold.getD config.maxPriceThreshold
    usePriceLevels := newConfig.usePriceLevels.getD config.usePriceLevels
    allowedPriceLevels := newConfig.allowedPriceLevels.getD config.allowedPriceLevels }

/-- Embeds `loadConfig()`: `fileExists` says whether the persisted config file is
present, `parsed` is the outcome of `JSON.parse` on its content (`none` for a
corrupted document). Returns the loaded config together with the list of
backup files written; a corrupted document is backed up under the original
name suffixed `.corrupted.<timestamp>` before the defaults replace it. -/
def loadConfig (now : ℤ) (fileExists : Bool) (parsed : Option TibberConfig) :
    TibberConfig × List String :=
  if fileExists then
    match parsed with
    | some config => (config, [])
    | none => (defaultTibberConfig, ["tibber_config.json.corrupted." ++ toString now])
  else (defaultTibberConfig, [])

/-- A price point as delivered by the external price API, in major currency
units, before conversion. -/
structure RawPricePoint where
  total : ℚ
  energy : ℚ
  tax : ℚ
  level : String
  startsAt : ℤ
  currency : String
  deriving Repr, DecidableEq

/-- Currency normalization on ingestion: major units to hundredths, currency
relabelled `cent`. -/
def convertPrice (p : RawPricePoint) : PricePoint :=
  { total := p.total * 100
    energy := p.energy * 100
    tax := p.tax * 100
    level := p.level
    startsAt := p.startsAt
    currency := "cent" }

/-- The payload of a successful price fetch (current + today + tomorrow). -/
structure RawPriceInfo where
  current : RawPricePoint
  today : List RawPricePoint
  tomorrow : List RawPricePoint
  deriving Repr, DecidableEq

/-- The provider state touched by a refresh: the cache and `lastUpdate`. -/
structure TibberState where
  cache : TibberCache
  lastUpdate : Option ℤ
  deriving Repr, DecidableEq

/-- The cache rebuild performed by `getCurrentPriceInfo` on a successful
fetch: converted current price, converted today/tomorrow, forecast rebuilt
wholesale, `lastUpdate` and the cache timestamp set to now. -/
def applyPriceInfo (st : TibberState) (info : RawPriceInfo) (now : ℤ) : TibberState :=
  let convertedCurrent := convertPrice info.current
  let convertedToday := info.today.map convertPrice
  let convertedTomorrow := info.tomorrow.map convertPrice
  { cache :=
      { st.cache with
        currentPrice := some convertedCurrent
        priceInfo := some
          { current := convertedCurrent
            today := convertedToday
            tomorrow := convertedTomorrow }
        forecast := convertedToday ++ convertedTomorrow
        timestamp := some now }
    lastUpdate := some now }

/-- Embeds `refreshData()`: short-circuits on a disabled provider or a missing or
masked API key, and converts a failed fetch into `false`; only a successful
fetch rebuilds the cache. The fetch outcome of `getCurrentPriceInfo` (either
query path) is passed in as `fetched`. The returned Bool is the reported
success; the function never throws to its caller. -/
def refreshData (config : TibberConfig) (st : TibberState)
    (fetched : Except String RawPriceInfo) (now : ℤ) : Bool × TibberState :=
  if ¬config.enabled then (false, st)
  else if config.apiKey = "" ∨ config.apiKey = "***" then (false, st)
  else
    match fetched with
    | Except.error _ => (false, st)
    | Except.ok info => (true, applyPriceInfo st info now)

/-- A user-defined warning rule (a `warningType` in warningService.js). -/
structure WarningType where
  id : String
  name : String
  description : String
  parameter : String
  condition : String
  threshold : ℚ
  enabled : Bool
  priority : String
  cooldownMinutes : ℚ
  timeCondition : Option String
  deriving Repr, DecidableEq

/-- The `triggered` payload embedded in a warning event. -/
structure TriggeredInfo where
  parameter : String
  value : ℚ
  threshold : ℚ
  condition : String
  deriving Repr, DecidableEq

/-- A telemetry snapshot: named fields with rational values; an absent field
(JS null/undefined) is simply missing from the association list. -/
abbrev SystemState : Type := List (String × ℚ)

/-- A triggered warning instance as appended to the history. -/
structure WarningEvent where
  id : String
  warningTypeId : String
  timestamp : ℤ
  systemState : List (String × ℚ)
  title : String
  description : String
  priority : String
  triggered : TriggeredInfo
  deriving Repr, DecidableEq

/-- The persisted warning configuration record. -/
structure WarningConfig where
  enabled : Bool
  warningTypes : List WarningType
  warningHistory : List WarningEvent
  maxHistoryItems : ℕ
  deriving Repr, DecidableEq

/-- The schema defaults of warningService.js (no built-in warning types). -/
def defaultWarningConfig : WarningConfig :=
  { enabled := true
    warningTypes := []
    warningHistory := []
    maxHistoryItems := 100 }

/-- Embeds `getConfig()` of warningService.js: `ensureConfigFile` creates the file
with defaults when absent; a document that fails to parse is replaced by a
copy of the defaults. No backup of a corrupted document is written (the
second component is the list of backup files, always empty here). -/
def warningGetConfig (fileExists : Bool) (parsed : Option WarningConfig) :
    WarningConfig × List String :=
  if fileExists then
    match parsed with
    | some config => (config, [])
    | none => (defaultWarningConfig, [])
  else (defaultWarningConfig, [])

/-- Embeds `isDaytime()`: local hour between 8 AM and 6 PM, both ends included
(`hour >= 8 && hour <= 18`). -/
def isDaytime (hour : ℕ) : Bool :=
  decide (8 ≤ hour ∧ hour ≤ 18)

/-- Embeds `getWarningTypeById(id)`. -/
def getWarningTypeById (config : WarningConfig) (id : String) : Option WarningType :=
  config.warningTypes.find? (fun warning => warning.id = id)

/-- Embeds `isWarningOnCooldown(warningTypeId)`: fail-closed on an unresolvable id;
otherwise look at the most recent history entry for this id (history sorted
descending by timestamp, as the JS comparator does) and compare the elapsed
minutes against the cooldown. -/
def isWarningOnCooldown (config : WarningConfig) (warningTypeId : String) (now : ℤ) : Bool :=
  match getWarningTypeById config warningTypeId with
  | none => true
  | some warningType =>
    let sorted := (config.warningHistory.filter
        (fun w => w.warningTypeId = warningTypeId)).insertionSort
        (fun a b => b.timestamp ≤ a.timestamp)
    match sorted.head? with
    | none => false
    | some recentWarning =>
      decide (((now - recentWarning.timestamp : ℚ) / (1000 * 60)) <
        warningType.cooldownMinutes)

/-- Embeds `evaluateCondition(condition, currentValue, thresholdValue)`. -/
def evaluateCondition (condition : String) (currentValue thresholdValue : ℚ) : Bool :=
  if condition = "lt" then decide (currentValue < thresholdValue)
  else if condition = "gt" then decide (currentValue > thresholdValue)
  else if condition = "eq" then decide (currentValue = thresholdValue)
  else if condition = "lte" then decide (currentValue ≤ thresholdValue)
  else if condition = "gte" then decide (currentValue ≥ thresholdValue)
  else false

/-- Embeds `addWarningToHistory(warningInstance)`: unshift the new event, then trim
the history to `maxHistoryItems` when it exceeds the cap. -/
def addWarningToHistory (config : WarningConfig) (warningInstance : WarningEvent) :
    WarningConfig :=
  let history := warningInstance :: config.warningHistory
  { config with
    warningHistory :=
      if config.maxHistoryItems < history.length then history.take config.maxHistoryItems
      else history }

/-- The warning instance synthesized by `checkWarnings` on a trigger. -/
def mkWarningInstance (warningType : WarningType) (systemState : SystemState)
    (now : ℤ) (currentValue : ℚ) : WarningEvent :=
  { id := "instance-" ++ toString now
    warningTypeId := warningType.id
    timestamp := now
    systemState := systemState
    title := warningType.name
    description := warningType.description
    priority := warningType.priority
    triggered :=
      { parameter := warningType.parameter
        value := currentValue
        threshold := warningType.threshold
        condition := warningType.condition } }

/-- One iteration of the rule loop of `checkWarnings`. The config component
of the accumulator threads the on-disk state: `isWarningOnCooldown` and
`addWarningToHistory` both re-read the persisted config, which reflects the
saves made for rules processed earlier in the same pass. -/
def processRule (systemState : SystemState) (now : ℤ) (hour : ℕ)
    (acc : WarningConfig × List WarningEvent) (warningType : WarningType) :
    WarningConfig × List WarningEvent :=
  if isWarningOnCooldown acc.1 warningType.id now then acc
  else if warningType.timeCondition = some "daytime" ∧ ¬isDaytime hour then acc
  else
    match systemState.lookup warningType.parameter with
    | none => acc
    | some currentValue =>
      if evaluateCondition warningType.condition currentValue warningType.threshold then
        let warningInstance := mkWarningInstance warningType systemState now currentValue
        (addWarningToHistory acc.1 warningInstance, acc.2 ++ [warningInstance])
      else acc

/-- Embeds `checkWarnings(systemState)`: nothing when the monitor is globally
disabled; otherwise fold the per-rule check over the enabled rules. Returns
the final persisted config together with the triggered warnings. -/
def checkWarnings (config : WarningConfig) (systemState : SystemState)
    (now : ℤ) (hour : ℕ) : WarningConfig × List WarningEvent :=
  if ¬config.enabled then (config, [])
  else
    (config.warningTypes.filter (fun w => w.enabled)).foldl
      (processRule systemState now hour) (config, [])

/-- The per-event-type switches for AI charging notifications. -/
structure AIChargingNotifications where
  chargingStarted : Bool
  chargingStopped : Bool
  optimalPrice : Bool
  negativePrice : Bool
  deriving Repr, DecidableEq

/-- A user-configured notification rule. -/
structure NotificationRule where
  id : String
  type : String
  warningType : Option String
  ruleId : Option String
  enabled : Bool
  deriving Repr, DecidableEq

/-- The persisted Telegram configuration record. -/
structure TelegramConfig where
  enabled : Bool
  botToken : String
  chatIds : List String
  notificationRules : List NotificationRule
  enhancedFeatures : Bool
  inverterTypeSupport : Bool
  autoNotifications : Bool
  aiChargingNotifications : AIChargingNotifications
  deriving Repr, DecidableEq

/-- The schema defaults of telegramService.js (no automatic notifications). -/
def defaultTelegramConfig : TelegramConfig :=
  { enabled := false
    botToken := ""
    chatIds := []
    notificationRules := []
    enhancedFeatures := true
    inverterTypeSupport := true
    autoNotifications := false
    aiChargingNotifications :=
      { chargingStarted := false
        chargingStopped := false
        optimalPrice := false
        negativePrice := false } }

/-- Embeds `getConfig()` of telegramService.js: defaults when the file is absent or
its document fails to parse (a parsed document is merged over the defaults,
which for a complete document is the document itself). No backup of a
corrupted document is written. -/
def telegramGetConfig (fileExists : Bool) (parsed : Option TelegramConfig) :
    TelegramConfig × List String :=
  if fileExists then
    match parsed with
    | some config => (config, [])
    | none => (defaultTelegramConfig, [])
  else (defaultTelegramConfig, [])

/-- Embeds `broadcastMessage(message)`: nothing is attempted unless the dispatcher
is enabled with a bot token and at least one chat id; otherwise every chat id
is attempted in order — `send chatId = false` stands for a sink send whose
exception was caught and logged — and the overall result is whether the
success count is positive. Also returns the list of attempted sinks, in
order, to record that no failure aborts the loop. -/
def broadcastMessage (config : TelegramConfig) (send : String → Bool) :
    Bool × List String :=
  if ¬config.enabled ∨ config.botToken = "" ∨ config.chatIds = [] then (false, [])
  else
    let loop := config.chatIds.foldl
      (fun (acc : ℕ × List String) chatId =>
        ((if send chatId then acc.1 + 1 else acc.1), acc.2 ++ [chatId]))
      (0, [])
    (decide (0 < loop.1), loop.2)

/-- The two decision verbs. -/
inductive DecisionKind where
  | START_CHARGING
  | STOP_CHARGING
  deriving Repr, DecidableEq

/-- A computed charging decision: verb plus inverter mode string. -/
structure ChargingDecision where
  decision : DecisionKind
  mode : String
  deriving Repr, DecidableEq

/-- The telemetry snapshot consumed by the decision engine. -/
structure Snapshot where
  battery_soc : ℚ
  pv_power : ℚ
  load : ℚ
  grid_power : ℚ
  grid_voltage : ℚ
  deriving Repr, DecidableEq

/-- Modelled from the spec: the DecisionEngine evaluation (spec section 4.3),
whose implementation is not among the sources at hand. Fixed priority order:
(1) safety override when `battery_soc ≥ targetSoC` or `grid_voltage` outside
[200V,250V]; (2) strong solar surplus; (3) no solar, branch on the price
signal; (4) solar available but not strong; (5) default stop. `priceGood` is
the price signal (the output of `isPriceGood`). -/
def decideCharging (snapshot : Snapshot) (priceGood : Bool) (targetSoC : ℚ) :
    ChargingDecision :=
  if snapshot.battery_soc ≥ targetSoC ∨
      snapshot.grid_voltage < 200 ∨ snapshot.grid_voltage > 250 then
    { decision := DecisionKind.STOP_CHARGING, mode := "Solar first" }
  else if snapshot.pv_power > snapshot.load * 2 ∧ snapshot.battery_soc < 90 then
    { decision := DecisionKind.START_CHARGING, mode := "Solar only" }
  else if snapshot.pv_power ≤ 0 then
    if priceGood then
      { decision := DecisionKind.START_CHARGING, mode := "Utility first" }
    else
      { decision := DecisionKind.STOP_CHARGING, mode := "Solar/Battery/Utility" }
  else if priceGood then
    { decision := DecisionKind.START_CHARGING, mode := "Solar and utility simultaneously" }
  else if snapshot.battery_soc < 50 then
    { decision := DecisionKind.START_CHARGING, mode := "Solar/Utility/Battery" }
  else
    { decision := DecisionKind.STOP_CHARGING, mode := "Solar first" }

/-- Modelled from the spec: for legacy inverters the mode collapses to a
boolean `grid_charge` value, `Enabled` unless the mode implies no grid use
(spec section 4.3). -/
def legacyGridCharge (mode : String) : String :=
  if mode = "Solar first" ∨ mode = "Solar only" then "Disabled" else "Enabled"

/-- A sequence of history insertions, in order (each one a call to
`addWarningToHistory`). -/
def addAllToHistory (config : WarningConfig) (ws : List WarningEvent) : WarningConfig :=
  ws.foldl addWarningToHistory config

/-- A pair of sample events for concrete history runs. -/
def sampleEvent1 : WarningEvent :=
  { id := "instance-1", warningTypeId := "a", timestamp := 1, systemState := [],
    title := "", description := "", priority := "low",
    triggered := { parameter := "load", value := 1, threshold := 0, condition := "gt" } }

/-- Second sample event. -/
def sampleEvent2 : WarningEvent :=
  { id := "instance-2", warningTypeId := "a", timestamp := 2, systemState := [],
    title := "", description := "", priority := "low",
    triggered := { parameter := "load", value := 2, threshold := 0, condition := "gt" } }

/-- An existing configuration holding a real API key, for the update runs. -/
def cfgC10 : TibberConfig :=
  { defaultTibberConfig with apiKey := "real-key", currency := "EUR" }

/-- An update carrying a masked API key, a country, and an empty currency. -/
def updC10 : TibberConfigUpdate :=
  { emptyUpdate with apiKey := some "***", country := some "NO", currency := some "" }

/-- A forecast entry far beyond any 24-hour horizon (100 h in ms). -/
def ppFar : PricePoint :=
  { total := 5, energy := 0, tax := 0, level := "NORMAL",
    startsAt := 360000000, currency := "cent" }

/-- A forecast entry two hours ahead, same price as `ppFar`. -/
def ppNear : PricePoint :=
  { total := 5, energy := 0, tax := 0, level := "NORMAL",
    startsAt := 7200000, currency := "cent" }

/-- A cache whose forecast is out of time order and sparse. -/
def cacheC6 : TibberCache :=
  { currentPrice := none, priceInfo := none, forecast := [ppFar, ppNear],
    consumption := none, timestamp := none }

/-- A time-ordered variant of the two-entry forecast. -/
def cacheC6W : TibberCache :=
  { currentPrice := none, priceInfo := none, forecast := [ppNear, ppFar],
    consumption := none, timestamp := none }

/-- An isolated rule "r" with a 60-minute cooldown, used for the cooldown
scenarios. -/
def wtR : WarningType :=
  { id := "r", name := "R", description := "", parameter := "battery_soc",
    condition := "lt", threshold := 50, enabled := true, priority := "medium",
    cooldownMinutes := 60, timeCondition := none }

/-- A second rule "q" identical to "r" except for its id. -/
def wtQ : WarningType :=
  { id := "q", name := "Q", description := "", parameter := "battery_soc",
    condition := "lt", threshold := 50, enabled := true, priority := "medium",
    cooldownMinutes := 60, timeCondition := none }

/-- A trigger record for rule "r" at time T = 0. -/
def evR0 : WarningEvent :=
  { id := "instance-0", warningTypeId := "r", timestamp := 0, systemState := [],
    title := "R", description := "", priority := "medium",
    triggered := { parameter := "battery_soc", value := 10, threshold := 50,
                   condition := "lt" } }

/-- Rules q and r with r freshly triggered, but a history cap of one. -/
def cfgC3 : WarningConfig :=
  { enabled := true, warningTypes := [wtQ, wtR], warningHistory := [evR0],
    maxHistoryItems := 1 }

/-- Rule r alone with its trigger record and a roomy history. -/
def cfgC3e : WarningConfig :=
  { enabled := true, warningTypes := [wtR], warningHistory := [evR0],
    maxHistoryItems := 100 }

/-- A daytime-conditioned rule "d". -/
def wtD : WarningType :=
  { id := "d", name := "D", description := "", parameter := "battery_soc",
    condition := "lt", threshold := 15, enabled := true, priority := "high",
    cooldownMinutes := 60, timeCondition := some "daytime" }

/-- A monitor with the single daytime rule enabled and empty history. -/
def cfgC8 : WarningConfig :=
  { enabled := true, warningTypes := [wtD], warningHistory := [],
    maxHistoryItems := 100 }

/-! ## Theorems -/

/-- Inserting into a list that is pairwise `S` and pairwise `r` keeps it
pairwise `S`, provided the inserted element relates by `S` in the direction
the insertion point dictates. -/
theorem pairwise_orderedInsert_of {α : Type} (r : α → α → Prop) [DecidableRel r]
    (S : α → α → Prop) (htrans : ∀ x y z, r x y → r y z → r x z) (a : α) :
    ∀ l : List α, l.Pairwise S → l.Pairwise r →
      (∀ y ∈ l, r a y → S a y) → (∀ y ∈ l, ¬ r a y → S y a) →
      (l.orderedInsert r a).Pairwise S := by
  intro l
  induction l with
  | nil =>
      intro _ _ _ _
      simp [List.orderedInsert]
  | cons b l ih =>
      intro hS hr ha hn
      by_cases hab : r a b
      · simp only [List.orderedInsert, if_pos hab]
        refine List.pairwise_cons.mpr ⟨?_, hS⟩
        intro z hz
        rcases List.mem_cons.mp hz with hz | hz
        · exact hz ▸ ha b (List.mem_cons_self b l) hab
        · exact ha z (List.mem_cons_of_mem b hz)
            (htrans a b z hab ((List.pairwise_cons.mp hr).1 z hz))
      · simp only [List.orderedInsert, if_neg hab]
        refine List.pairwise_cons.mpr ⟨?_, ?_⟩
        · intro z hz
          rcases (List.mem_orderedInsert r).mp hz with hz | hz
          · exact hz ▸ hn b (List.mem_cons_self b l) hab
          · exact (List.pairwise_cons.mp hS).1 z hz
        · exact ih (List.pairwise_cons.mp hS).2 (List.pairwise_cons.mp hr).2
            (fun y hy h => ha y (List.mem_cons_of_mem b hy) h)
            (fun y hy h => hn y (List.mem_cons_of_mem b hy) h)

/-- Stability of the embedded sort, packaged as an order statement: if the
input is pairwise `R` (original order) then the output of sorting by `r` is
pairwise `S`, where `S` refines `r`-sortedness with `R` on ties. -/
theorem pairwise_insertionSort_of {α : Type} (r : α → α → Prop) [DecidableRel r]
    (S R : α → α → Prop)
    (htrans : ∀ x y z, r x y → r y z → r x z)
    (htot : ∀ x y, r x y ∨ r y x)
    (hRS : ∀ x y, r x y → R x y → S x y)
    (hNS : ∀ x y, ¬ r x y → S y x) :
    ∀ l : List α, l.Pairwise R → (l.insertionSort r).Pairwise S := by
  intro l
  induction l with
  | nil => intro _; simp [List.insertionSort]
  | cons a l ih =>
      intro hR
      show (List.orderedInsert r a (l.insertionSort r)).Pairwise S
      refine pairwise_orderedInsert_of r S htrans a (l.insertionSort r)
        (ih (List.pairwise_cons.mp hR).2) ?_ ?_ ?_
      · exact @List.sorted_insertionSort α r _ ⟨htot⟩ ⟨fun x y z => htrans x y z⟩ l
      · intro y hy h
        exact hRS a y h ((List.pairwise_cons.mp hR).1 y ((List.mem_insertionSort r).mp hy))
      · intro y hy h
        exact hNS a y h

/-- Claim C1: for every snapshot, price signal and target SoC, if
`battery_soc ≥ targetSoC` or `grid_voltage` is outside [200V,250V], the
decision is STOP_CHARGING with mode "Solar first" (whose legacy-vocabulary
translation is a disabled grid charge), regardless of the price signal and
of any PV surplus. -/
theorem C1_safety_override (snapshot : Snapshot) (priceGood : Bool) (targetSoC : ℚ)
    (h : snapshot.battery_soc ≥ targetSoC ∨
      snapshot.grid_voltage < 200 ∨ snapshot.grid_voltage > 250) :
    decideCharging snapshot priceGood targetSoC =
      { decision := DecisionKind.STOP_CHARGING, mode := "Solar first" } ∧
    legacyGridCharge (decideCharging snapshot priceGood targetSoC).mode = "Disabled" := by
  have h1 : decideCharging snapshot priceGood targetSoC =
      { decision := DecisionKind.STOP_CHARGING, mode := "Solar first" } := by
    unfold decideCharging
    rw [if_pos h]
  exact ⟨h1, by rw [h1]; decide⟩

/-- Witness for C1: a battery at 82% with an 80% target and a very cheap
price still stops charging in "Solar first" mode. -/
theorem C1_safety_override_witness :
    ((82 : ℚ) ≥ 80 ∨ (230 : ℚ) < 200 ∨ (230 : ℚ) > 250) ∧
    decideCharging
        { battery_soc := 82, pv_power := 0, load := 0, grid_power := 0, grid_voltage := 230 }
        true 80 =
      { decision := DecisionKind.STOP_CHARGING, mode := "Solar first" } :=
  ⟨Or.inl (by norm_num),
    (C1_safety_override
      { battery_soc := 82, pv_power := 0, load := 0, grid_power := 0, grid_voltage := 230 }
      true 80 (Or.inl (by norm_num))).1⟩

/-- Claim C2: `isPriceGood` follows exactly the decision ladder: level
membership when `usePriceLevels`; otherwise strict comparison against a
computable average; otherwise the threshold when set; otherwise false. -/
theorem C2_isPriceGood_ladder (config : TibberConfig) (cache : TibberCache)
    (now : ℤ) (p : PricePoint) :
    (config.usePriceLevels = true →
      isPriceGood config cache now (some p) = config.allowedPriceLevels.contains p.level) ∧
    (config.usePriceLevels = false → ∀ avg, calculateAveragePrice cache now 24 = some avg →
      (isPriceGood config cache now (some p) = true ↔ p.total < avg)) ∧
    (config.usePriceLevels = false → calculateAveragePrice cache now 24 = none →
      ∀ t, config.maxPriceThreshold = some t →
      (isPriceGood config cache now (some p) = true ↔ p.total ≤ t)) ∧
    (config.usePriceLevels = false → calculateAveragePrice cache now 24 = none →
      config.maxPriceThreshold = none → isPriceGood config cache now (some p) = false) := by
  refine ⟨?_, ?_, ?_, ?_⟩
  · intro h
    simp [isPriceGood, h]
  · intro h avg havg
    simp [isPriceGood, h, havg]
  · intro h havg t ht
    simp [isPriceGood, h, havg, ht]
  · intro h havg ht
    simp [isPriceGood, h, havg, ht]

/-- Witness for C2: with price levels in use, a NORMAL-level point with an
enormous numeric price is still accepted under the default allowed levels. -/
theorem C2_isPriceGood_ladder_witness :
    defaultTibberConfig.usePriceLevels = true ∧
    isPriceGood defaultTibberConfig
        { currentPrice := none, priceInfo := none, forecast := [],
          consumption := none, timestamp := none } 0
        (some { total := 100000, energy := 0, tax := 0, level := "NORMAL",
                startsAt := 1, currency := "cent" }) = true :=
  ⟨rfl, by
    rw [(C2_isPriceGood_ladder defaultTibberConfig
      { currentPrice := none, priceInfo := none, forecast := [],
        consumption := none, timestamp := none } 0
      { total := 100000, energy := 0, tax := 0, level := "NORMAL",
        startsAt := 1, currency := "cent" }).1 rfl]
    decide⟩

/-- Claim C5: every failure of the price refresh (provider disabled, missing
or masked API key, failed fetch of either query path) reports `false`
without throwing and leaves the whole provider state — cache and
`lastUpdate` — unchanged. -/
theorem C5_refresh_failure_retains_cache (config : TibberConfig) (st : TibberState)
    (fetched : Except String RawPriceInfo) (now : ℤ)
    (h : config.enabled = false ∨ config.apiKey = "" ∨ config.apiKey = "***" ∨
      ∃ e, fetched = Except.error e) :
    refreshData config st fetched now = (false, st) := by
  rcases h with h | h | h | ⟨e, he⟩
  · simp [refreshData, h]
  · simp [refreshData, h]
  · simp [refreshData, h]
  · simp [refreshData, he]

/-- Witness for C5: a transport failure with an enabled, keyed provider
returns false and the prior cache verbatim. -/
theorem C5_refresh_failure_retains_cache_witness :
    refreshData { defaultTibberConfig with enabled := true, apiKey := "k" }
        { cache := { currentPrice := none, priceInfo := none,
                     forecast := [], consumption := none, timestamp := some 7 },
          lastUpdate := some 7 }
        (Except.error "NetworkError") 99 =
      (false,
        { cache := { currentPrice := none, priceInfo := none,
                     forecast := [], consumption := none, timestamp := some 7 },
          lastUpdate := some 7 }) :=
  C5_refresh_failure_retains_cache _ _ _ _ (Or.inr (Or.inr (Or.inr ⟨"NetworkError", rfl⟩)))

/-- The send loop of `broadcastMessage` accumulates every chat id in order
and counts the successes. -/
theorem broadcast_loop_spec (send : String → Bool) :
    ∀ (chatIds : List String) (n : ℕ) (attempted : List String),
      chatIds.foldl
          (fun (acc : ℕ × List String) chatId =>
            ((if send chatId then acc.1 + 1 else acc.1), acc.2 ++ [chatId]))
          (n, attempted) =
        (n + chatIds.countP send, attempted ++ chatIds) := by
  intro chatIds
  induction chatIds with
  | nil => intro n attempted; simp
  | cons c l ih =>
      intro n attempted
      simp only [List.foldl_cons, ih, List.countP_cons, Prod.mk.injEq]
      refine ⟨?_, by simp⟩
      by_cases h : send c
      all_goals simp [h]
      all_goals omega

/-- Claim C7: on a properly configured dispatcher, every configured sink is
attempted — a caught sink failure aborts nothing — and the broadcast
succeeds iff at least one individual send succeeded. -/
theorem C7_broadcast_all_sinks (config : TelegramConfig) (send : String → Bool)
    (henabled : config.enabled = true) (htoken : config.botToken ≠ "")
    (hchats : config.chatIds ≠ []) :
    (broadcastMessage config send).2 = config.chatIds ∧
    ((broadcastMessage config send).1 = true ↔ ∃ c ∈ config.chatIds, send c = true) := by
  have hcond : ¬(¬config.enabled ∨ config.botToken = "" ∨ config.chatIds = []) := by
    simp [henabled, htoken, hchats]
  rw [broadcastMessage, if_neg hcond]
  simp only [broadcast_loop_spec, Nat.zero_add, List.nil_append]
  constructor
  · trivial
  · simp [List.countP_pos_iff]

/-- Witness for C7: two sinks, the first one failing; both are attempted and
the broadcast reports success because the second send succeeded. -/
theorem C7_broadcast_all_sinks_witness :
    (broadcastMessage
        { defaultTelegramConfig with enabled := true, botToken := "t", chatIds := ["a", "b"] }
        (fun c => c = "b")).2 = ["a", "b"] ∧
    ((broadcastMessage
        { defaultTelegramConfig with enabled := true, botToken := "t", chatIds := ["a", "b"] }
        (fun c => c = "b")).1 = true ↔
      ∃ c ∈ ["a", "b"], (fun c : String => decide (c = "b")) c = true) :=
  C7_broadcast_all_sinks _ _ rfl (by decide) (by decide)

/-- Claim C9 counterexample: a corrupted warning (and notification) config
document is replaced with defaults but no backup file is written — only the
price config loader writes a `.corrupted.<timestamp>` backup — refuting the
claim that each persisted config record is backed up before replacement. -/
theorem C9_counterexample :
    (warningGetConfig true none).2 = [] ∧
    (telegramGetConfig true none).2 = [] ∧
    (loadConfig 1700000000000 true none).2 ≠ [] := by
  refine ⟨rfl, rfl, by decide⟩

/-- Claim C9 (amended): loading a corrupted persisted config is never fatal
and always yields the schema defaults; the price config loader additionally
preserves the corrupted payload under a timestamped backup name, while the
warning and notification config loaders write no backup. -/
theorem C9_config_corruption_amended (now : ℤ) :
    loadConfig now true none =
      (defaultTibberConfig, ["tibber_config.json.corrupted." ++ toString now]) ∧
    warningGetConfig true none = (defaultWarningConfig, []) ∧
    telegramGetConfig true none = (defaultTelegramConfig, []) :=
  ⟨rfl, rfl, rfl⟩

/-- One insertion always leaves the history equal to the capped unshift. -/
theorem addWarningToHistory_history (config : WarningConfig) (w : WarningEvent) :
    (addWarningToHistory config w).warningHistory =
      (w :: config.warningHistory).take config.maxHistoryItems := by
  unfold addWarningToHistory
  dsimp only
  split
  · rfl
  · next h => rw [List.take_of_length_le (by omega)]

/-- Insertions do not touch the cap, the rule list or the global switch. -/
theorem addWarningToHistory_frame (config : WarningConfig) (w : WarningEvent) :
    (addWarningToHistory config w).maxHistoryItems = config.maxHistoryItems ∧
    (addWarningToHistory config w).warningTypes = config.warningTypes ∧
    (addWarningToHistory config w).enabled = config.enabled := by
  unfold addWarningToHistory
  exact ⟨rfl, rfl, rfl⟩

/-- Truncating the tail first does not change a truncated append. -/
theorem take_append_take {α : Type} (n : ℕ) (a b : List α) :
    (a ++ b.take n).take n = (a ++ b).take n := by
  rw [List.take_append_eq_append_take, List.take_append_eq_append_take,
    List.take_take]
  congr 1
  exact congrArg (fun k => b.take k) (Nat.min_eq_left (Nat.sub_le n a.length))

/-- The history after any insertion sequence is the most recent
`maxHistoryItems` events of (new events newest-first) ++ (old history). -/
theorem addAllToHistory_history (ws : List WarningEvent) :
    ∀ config : WarningConfig,
      config.warningHistory.length ≤ config.maxHistoryItems →
      (addAllToHistory config ws).warningHistory =
          (ws.reverse ++ config.warningHistory).take config.maxHistoryItems ∧
        (addAllToHistory config ws).maxHistoryItems = config.maxHistoryItems := by
  induction ws with
  | nil =>
      intro config h
      exact ⟨(List.take_of_length_le h).symm, rfl⟩
  | cons w ws ih =>
      intro config h
      have hstep : (addWarningToHistory config w).warningHistory =
          (w :: config.warningHistory).take config.maxHistoryItems :=
        addWarningToHistory_history config w
      have hmax : (addWarningToHistory config w).maxHistoryItems = config.maxHistoryItems :=
        (addWarningToHistory_frame config w).1
      have hlen : (addWarningToHistory config w).warningHistory.length ≤
          (addWarningToHistory config w).maxHistoryItems := by
        rw [hstep, hmax, List.length_take]
        omega
      obtain ⟨h1, h2⟩ := ih (addWarningToHistory config w) hlen
      refine ⟨?_, by rw [show addAllToHistory config (w :: ws) =
        addAllToHistory (addWarningToHistory config w) ws from rfl, h2, hmax]⟩
      rw [show addAllToHistory config (w :: ws) =
        addAllToHistory (addWarningToHistory config w) ws from rfl, h1, hstep, hmax,
        take_append_take, List.reverse_cons, List.append_assoc]
      rfl

/-- Claim C4: from any state within the cap, after every sequence of
insertions the history length never exceeds `maxHistoryItems`, exactly the
most recent `maxHistoryItems` events are retained (newest-first append of
the new events, truncated — the oldest are the ones dropped), and each
insertion places the new event at the head. -/
theorem C4_history_fifo (config : WarningConfig) (ws : List WarningEvent)
    (h : config.warningHistory.length ≤ config.maxHistoryItems) :
    (addAllToHistory config ws).warningHistory =
        (ws.reverse ++ config.warningHistory).take config.maxHistoryItems ∧
    (addAllToHistory config ws).warningHistory.length ≤ config.maxHistoryItems ∧
    (∀ (c : WarningConfig) (w : WarningEvent), 0 < c.maxHistoryItems →
      (addWarningToHistory c w).warningHistory.head? = some w) := by
  obtain ⟨h1, _⟩ := addAllToHistory_history ws config h
  refine ⟨h1, by rw [h1, List.length_take]; omega, ?_⟩
  intro c w hc
  rw [addWarningToHistory_history c w]
  obtain ⟨m, hm⟩ := Nat.exists_eq_succ_of_ne_zero (Nat.pos_iff_ne_zero.mp hc)
  rw [hm, List.take_succ_cons]
  rfl

/-- Witness for C4: inserting two events into the default (empty, cap 100)
history retains both, newest first. -/
theorem C4_history_fifo_witness :
    defaultWarningConfig.warningHistory.length ≤ defaultWarningConfig.maxHistoryItems ∧
    (addAllToHistory defaultWarningConfig [sampleEvent1, sampleEvent2]).warningHistory =
      ([sampleEvent1, sampleEvent2].reverse
        ++ defaultWarningConfig.warningHistory).take defaultWarningConfig.maxHistoryItems :=
  ⟨by decide, (C4_history_fifo defaultWarningConfig _ (by decide)).1⟩

/-- Claim C10 counterexample: with a masked API key the stored key does
survive, but not every other supplied field is merged verbatim — a supplied
empty-string currency together with a supplied country is replaced by the
country's default currency (here NOK) before the merge. -/
theorem C10_counterexample :
    updC10.currency = some "" ∧
    (updateConfig cfgC10 updC10).currency = "NOK" ∧
    (updateConfig cfgC10 updC10).currency ≠ "" ∧
    (updateConfig cfgC10 updC10).apiKey = "real-key" := by
  decide

/-- Claim C10 (amended): a masked (`***`/`******`) or empty apiKey never
overwrites the stored key; every other supplied field is merged verbatim,
with the single exception that a supplied empty-string currency alongside a
supplied non-empty country is replaced by that country's default currency. -/
theorem C10_update_preserves_key (cfg : TibberConfig) (upd : TibberConfigUpdate)
    (hmask : upd.apiKey = some "***" ∨ upd.apiKey = some "******" ∨ upd.apiKey = some "") :
    (updateConfig cfg upd).apiKey = cfg.apiKey ∧
    (∀ b, upd.enabled = some b → (updateConfig cfg upd).enabled = b) ∧
    (∀ s, upd.homeId = some s → (updateConfig cfg upd).homeId = s) ∧
    (∀ s, upd.country = some s → (updateConfig cfg upd).country = s) ∧
    (∀ s, upd.timezone = some s → (updateConfig cfg upd).timezone = s) ∧
    (∀ q, upd.targetSoC = some q → (updateConfig cfg upd).targetSoC = q) ∧
    (∀ q, upd.minimumSoC = some q → (updateConfig cfg upd).minimumSoC = q) ∧
    (∀ o, upd.maxPriceThreshold = some o → (updateConfig cfg upd).maxPriceThreshold = o) ∧
    (∀ b, upd.usePriceLevels = some b → (updateConfig cfg upd).usePriceLevels = b) ∧
    (∀ l, upd.allowedPriceLevels = some l → (updateConfig cfg upd).allowedPriceLevels = l) ∧
    (∀ s, upd.currency = some s → s ≠ "" → (updateConfig cfg upd).currency = s) ∧
    (∀ c cd, upd.currency = some "" → upd.country = some c → c ≠ "" →
      getCountrySettings c = some cd → (updateConfig cfg upd).currency = cd.currency) := by
  rcases upd with ⟨en, ak, hi, co, tz, cu, ts, ms, mp, upl, apl⟩
  dsimp only at hmask ⊢
  have hstrip : updateConfig cfg ⟨en, ak, hi, co, tz, cu, ts, ms, mp, upl, apl⟩ =
      updateConfig cfg ⟨en, none, hi, co, tz, cu, ts, ms, mp, upl, apl⟩ := by
    rcases hmask with h | h | h <;> subst h <;> rfl
  rw [hstrip]
  rcases co with _ | c
  · have hres : updateConfig cfg ⟨en, none, hi, none, tz, cu, ts, ms, mp, upl, apl⟩ =
        { enabled := en.getD cfg.enabled, apiKey := cfg.apiKey,
          homeId := hi.getD cfg.homeId, country := cfg.country,
          timezone := tz.getD cfg.timezone, currency := cu.getD cfg.currency,
          targetSoC := ts.getD cfg.targetSoC, minimumSoC := ms.getD cfg.minimumSoC,
          maxPriceThreshold := mp.getD cfg.maxPriceThreshold,
          usePriceLevels := upl.getD cfg.usePriceLevels,
          allowedPriceLevels := apl.getD cfg.allowedPriceLevels } := by
      simp [updateConfig]
    rw [hres]
    refine ⟨rfl, ?_, ?_, ?_, ?_, ?_, ?_, ?_, ?_, ?_, ?_, ?_⟩ <;> intros <;> simp_all
  · by_cases hcond : c ≠ "" ∧ (cu = none ∨ cu = some "")
    · rcases hgc : getCountrySettings c with _ | cd
      · have hres : updateConfig cfg ⟨en, none, hi, some c, tz, cu, ts, ms, mp, upl, apl⟩ =
            { enabled := en.getD cfg.enabled, apiKey := cfg.apiKey,
              homeId := hi.getD cfg.homeId, country := c,
              timezone := tz.getD cfg.timezone, currency := cu.getD cfg.currency,
              targetSoC := ts.getD cfg.targetSoC, minimumSoC := ms.getD cfg.minimumSoC,
              maxPriceThreshold := mp.getD cfg.maxPriceThreshold,
              usePriceLevels := upl.getD cfg.usePriceLevels,
              allowedPriceLevels := apl.getD cfg.allowedPriceLevels } := by
          simp [updateConfig, hcond, hgc]
        rw [hres]
        refine ⟨rfl, ?_, ?_, ?_, ?_, ?_, ?_, ?_, ?_, ?_, ?_, ?_⟩ <;> intros <;> simp_all
      · have hres : updateConfig cfg ⟨en, none, hi, some c, tz, cu, ts, ms, mp, upl, apl⟩ =
            { enabled := en.getD cfg.enabled, apiKey := cfg.apiKey,
              homeId := hi.getD cfg.homeId, country := c,
              timezone := tz.getD cfg.timezone, currency := cd.currency,
              targetSoC := ts.getD cfg.targetSoC, minimumSoC := ms.getD cfg.minimumSoC,
              maxPriceThreshold := mp.getD cfg.maxPriceThreshold,
              usePriceLevels := upl.getD cfg.usePriceLevels,
              allowedPriceLevels := apl.getD cfg.allowedPriceLevels } := by
          simp [updateConfig, hcond, hgc]
        rw [hres]
        refine ⟨rfl, ?_, ?_, ?_, ?_, ?_, ?_, ?_, ?_, ?_, ?_, ?_⟩ <;> intros <;> simp_all
    · have hres : updateConfig cfg ⟨en, none, hi, some c, tz, cu, ts, ms, mp, upl, apl⟩ =
          { enabled := en.getD cfg.enabled, apiKey := cfg.apiKey,
            homeId := hi.getD cfg.homeId, country := c,
            timezone := tz.getD cfg.timezone, currency := cu.getD cfg.currency,
            targetSoC := ts.getD cfg.targetSoC, minimumSoC := ms.getD cfg.minimumSoC,
            maxPriceThreshold := mp.getD cfg.maxPriceThreshold,
            usePriceLevels := upl.getD cfg.usePriceLevels,
            allowedPriceLevels := apl.getD cfg.allowedPriceLevels } := by
        simp [updateConfig, hcond]
      rw [hres]
      refine ⟨rfl, ?_, ?_, ?_, ?_, ?_, ?_, ?_, ?_, ?_, ?_, ?_⟩ <;> intros <;> simp_all

/-- Witness for C10: a masked-key update that also renames the home id is
merged for the home id while keeping the stored key. -/
theorem C10_update_preserves_key_witness :
    ({ emptyUpdate with apiKey := some "***", homeId := some "h2" } :
        TibberConfigUpdate).apiKey = some "***" ∧
    (updateConfig cfgC10
        { emptyUpdate with apiKey := some "***", homeId := some "h2" }).apiKey =
      cfgC10.apiKey ∧
    (updateConfig cfgC10
        { emptyUpdate with apiKey := some "***", homeId := some "h2" }).homeId = "h2" :=
  ⟨rfl,
    (C10_update_preserves_key cfgC10 _ (Or.inl rfl)).1,
    (C10_update_preserves_key cfgC10 _ (Or.inl rfl)).2.2.1 "h2" rfl⟩

/-- Claim C6 counterexample: at `now = 0` with `horizonHours = 24`, the
returned entries are the first `hoursAhead` future entries by position, not
by time — the first result starts 100 hours ahead, outside the horizon —
and the equal-price tie is returned far-first, not earliest-`startsAt`
first. -/
theorem C6_counterexample :
    getCheapestHours cacheC6 0 2 24 =
      [ { time := 360000000, price := 5, level := "NORMAL" },
        { time := 7200000, price := 5, level := "NORMAL" } ] ∧
    (¬ ∀ e ∈ getCheapestHours cacheC6 0 2 24, e.time ≤ 0 + 24 * 3600000) ∧
    (¬ (getCheapestHours cacheC6 0 2 24).Pairwise
        (fun a b => a.price < b.price ∨ (a.price = b.price ∧ a.time ≤ b.time))) := by
  decide

/-- The non-empty-forecast branch of `getCheapestHours`, written out. -/
theorem getCheapestHours_eq (cache : TibberCache) (now : ℤ) (count hoursAhead : ℕ)
    (hf : cache.forecast ≠ []) :
    getCheapestHours cache now count hoursAhead =
      ((((cache.forecast.filter (fun p => now < p.startsAt)).take hoursAhead).insertionSort
          (fun a b => a.total ≤ b.total)).take count).map
        (fun p => { time := p.startsAt, price := p.total, level := p.level }) := by
  unfold getCheapestHours
  rw [if_neg hf]

/-- Claim C6 (amended): `cheapestHours(count, horizonHours)` returns at most
`count` entries, all strictly in the future, drawn from the first
`horizonHours` future forecast entries (an entry-count cutoff, not a
time-based horizon), sorted ascending by price; when the cached forecast is
strictly ordered by `startsAt` the stable sort breaks price ties by earliest
`startsAt`. -/
theorem C6_cheapestHours_amended (cache : TibberCache) (now : ℤ) (count hoursAhead : ℕ) :
    (getCheapestHours cache now count hoursAhead).length ≤ count ∧
    (∀ e ∈ getCheapestHours cache now count hoursAhead, now < e.time) ∧
    (∀ e ∈ getCheapestHours cache now count hoursAhead,
      ∃ p ∈ (cache.forecast.filter (fun q => now < q.startsAt)).take hoursAhead,
        e = { time := p.startsAt, price := p.total, level := p.level }) ∧
    (getCheapestHours cache now count hoursAhead).Pairwise
      (fun a b => a.price ≤ b.price) ∧
    (cache.forecast.Pairwise (fun a b => a.startsAt < b.startsAt) →
      (getCheapestHours cache now count hoursAhead).Pairwise
        (fun a b => a.price < b.price ∨ (a.price = b.price ∧ a.time < b.time))) := by
  by_cases hf : cache.forecast = []
  · have h0 : getCheapestHours cache now count hoursAhead = [] := by
      unfold getCheapestHours
      rw [if_pos hf]
    simp [h0]
  · rw [getCheapestHours_eq cache now count hoursAhead hf]
    have hmem : ∀ e ∈ ((((cache.forecast.filter (fun p => now < p.startsAt)).take
          hoursAhead).insertionSort (fun a b => a.total ≤ b.total)).take count).map
        (fun p => ({ time := p.startsAt, price := p.total, level := p.level } : CheapHour)),
        ∃ p ∈ (cache.forecast.filter (fun q => now < q.startsAt)).take hoursAhead,
          e = { time := p.startsAt, price := p.total, level := p.level } := by
      intro e he
      obtain ⟨p, hp, rfl⟩ := List.mem_map.mp he
      exact ⟨p, (List.mem_insertionSort _).mp (List.mem_of_mem_take hp), rfl⟩
    refine ⟨?_, ?_, hmem, ?_, ?_⟩
    · rw [List.length_map, List.length_take]
      exact Nat.min_le_left _ _
    · intro e he
      obtain ⟨p, hp, rfl⟩ := hmem e he
      have := (List.mem_filter.mp (List.mem_of_mem_take hp)).2
      simpa using this
    · refine (List.pairwise_map).mpr ?_
      refine List.Pairwise.sublist (List.take_sublist _ _) ?_
      exact @List.sorted_insertionSort PricePoint (fun a b => a.total ≤ b.total) _
        ⟨fun a b => le_total a.total b.total⟩
        ⟨fun _ _ _ hab hbc => le_trans hab hbc⟩ _
    · intro hforecast
      refine (List.pairwise_map).mpr ?_
      refine List.Pairwise.sublist (List.take_sublist _ _) ?_
      exact pairwise_insertionSort_of (fun a b : PricePoint => a.total ≤ b.total)
        (fun a b : PricePoint =>
          a.total < b.total ∨ (a.total = b.total ∧ a.startsAt < b.startsAt))
        (fun a b : PricePoint => a.startsAt < b.startsAt)
        (fun _ _ _ hab hbc => le_trans hab hbc)
        (fun a b => le_total a.total b.total)
        (fun x y hle hR => (lt_or_eq_of_le hle).imp id (fun heq => ⟨heq, hR⟩))
        (fun x y hn => Or.inl (lt_of_not_le hn))
        _ (List.Pairwise.sublist (List.take_sublist _ _) (hforecast.filter _))

/-- Witness for C6 (amended): on a time-ordered forecast the result is
bounded by `count` and tie-broken by earliest start. -/
theorem C6_cheapestHours_amended_witness :
    (getCheapestHours cacheC6W 0 2 24).length ≤ 2 ∧
    (getCheapestHours cacheC6W 0 2 24).Pairwise
      (fun a b => a.price < b.price ∨ (a.price = b.price ∧ a.time < b.time)) :=
  ⟨(C6_cheapestHours_amended cacheC6W 0 2 24).1,
    (C6_cheapestHours_amended cacheC6W 0 2 24).2.2.2.2 (by decide)⟩

/-- The head of the descending-timestamp sort dominates every member. -/
theorem timestamp_le_head_of_mem (l : List WarningEvent) (x : WarningEvent) (hx : x ∈ l) :
    ∃ h, (l.insertionSort (fun a b => b.timestamp ≤ a.timestamp)).head? = some h ∧
      x.timestamp ≤ h.timestamp := by
  have hmem : x ∈ l.insertionSort (fun a b => b.timestamp ≤ a.timestamp) :=
    (List.mem_insertionSort _).mpr hx
  have hsorted : (l.insertionSort (fun a b => b.timestamp ≤ a.timestamp)).Pairwise
      (fun a b => b.timestamp ≤ a.timestamp) :=
    @List.sorted_insertionSort WarningEvent (fun a b => b.timestamp ≤ a.timestamp) _
      ⟨fun a b => le_total b.timestamp a.timestamp⟩
      ⟨fun _ _ _ hab hbc => le_trans hbc hab⟩ l
  cases hs : l.insertionSort (fun a b => b.timestamp ≤ a.timestamp) with
  | nil => rw [hs] at hmem; cases hmem
  | cons h t =>
      refine ⟨h, rfl, ?_⟩
      rw [hs] at hmem hsorted
      rcases List.mem_cons.mp hmem with rfl | hmem2
      · exact le_refl _
      · exact (List.pairwise_cons.mp hsorted).1 x hmem2

/-- Any history entry for the rule that is still within the cooldown window
forces `isWarningOnCooldown` to true: the most recent entry is at least as
recent. -/
theorem isWarningOnCooldown_of_recent (config : WarningConfig) (id : String)
    (now : ℤ) (wt : WarningType) (e : WarningEvent)
    (hwt : getWarningTypeById config id = some wt)
    (he : e ∈ config.warningHistory) (hid : e.warningTypeId = id)
    (helapsed : (now - e.timestamp : ℚ) / (1000 * 60) < wt.cooldownMinutes) :
    isWarningOnCooldown config id now = true := by
  unfold isWarningOnCooldown
  rw [hwt]
  have hefil : e ∈ config.warningHistory.filter (fun w => w.warningTypeId = id) :=
    List.mem_filter.mpr ⟨he, by simp [hid]⟩
  obtain ⟨h, hh, hle⟩ := timestamp_le_head_of_mem _ e hefil
  simp only [hh, decide_eq_true_eq]
  calc (now - h.timestamp : ℚ) / (1000 * 60)
      ≤ (now - e.timestamp : ℚ) / (1000 * 60) := by
        apply (div_le_div_iff_of_pos_right (by norm_num)).mpr
        have : (e.timestamp : ℚ) ≤ (h.timestamp : ℚ) := by exact_mod_cast hle
        linarith
    _ < wt.cooldownMinutes := helapsed

/-- The per-rule step either leaves the state alone or appends exactly the
synthesized instance for a rule whose condition fired. -/
theorem processRule_cases (st : SystemState) (now : ℤ) (hour : ℕ)
    (acc : WarningConfig × List WarningEvent) (wt : WarningType) :
    processRule st now hour acc wt = acc ∨
    ∃ v, st.lookup wt.parameter = some v ∧
      isWarningOnCooldown acc.1 wt.id now = false ∧
      ¬(wt.timeCondition = some "daytime" ∧ ¬isDaytime hour) ∧
      processRule st now hour acc wt =
        (addWarningToHistory acc.1 (mkWarningInstance wt st now v),
          acc.2 ++ [mkWarningInstance wt st now v]) := by
  unfold processRule
  split
  · exact Or.inl rfl
  · next hcool =>
    split
    · exact Or.inl rfl
    · next hday =>
      split
      · exact Or.inl rfl
      · next v hv =>
        split
        · next hcond =>
          exact Or.inr ⟨v, hv, Bool.eq_false_iff.mpr hcool ▸ rfl, hday, rfl⟩
        · exact Or.inl rfl

/-- Every event produced by the rule loop either was already accumulated or
stems from one of the folded rules, which then passed the time-condition
check. -/
theorem mem_foldl_processRule (st : SystemState) (now : ℤ) (hour : ℕ) :
    ∀ (rules : List WarningType) (acc : WarningConfig × List WarningEvent)
      (ev : WarningEvent),
      ev ∈ (rules.foldl (processRule st now hour) acc).2 →
      ev ∈ acc.2 ∨ ∃ w ∈ rules, ev.warningTypeId = w.id ∧
        (w.timeCondition = some "daytime" → isDaytime hour = true) := by
  intro rules
  induction rules with
  | nil => intro acc ev hev; exact Or.inl hev
  | cons w rules ih =>
      intro acc ev hev
      rw [List.foldl_cons] at hev
      rcases ih (processRule st now hour acc w) ev hev with h | ⟨w2, hw2, hid, hday⟩
      · rcases processRule_cases st now hour acc w with hstep | ⟨v, _, _, hday, hstep⟩
        · rw [hstep] at h
          exact Or.inl h
        · rw [hstep] at h
          rcases List.mem_append.mp h with h | h
          · exact Or.inl h
          · have hev2 : ev = mkWarningInstance w st now v := List.mem_singleton.mp h
            refine Or.inr ⟨w, List.mem_cons_self w rules, by rw [hev2]; rfl, ?_⟩
            intro htc
            by_contra hb
            exact hday ⟨htc, hb⟩
      · exact Or.inr ⟨w2, List.mem_cons_of_mem w hw2, hid, hday⟩

/-- While a rule's unexpired trigger record survives in the threaded history
— guaranteed here by headroom for one insertion per folded rule — the rule
loop never emits another event for that rule. -/
theorem foldl_processRule_no_refire (st : SystemState) (now : ℤ) (hour : ℕ)
    (rid : String) (wt : WarningType) :
    ∀ (rules : List WarningType) (acc : WarningConfig × List WarningEvent),
      getWarningTypeById acc.1 rid = some wt →
      (∃ e ∈ acc.1.warningHistory, e.warningTypeId = rid ∧
        (now - e.timestamp : ℚ) / (1000 * 60) < wt.cooldownMinutes) →
      acc.1.warningHistory.length + rules.length ≤ acc.1.maxHistoryItems →
      (∀ ev ∈ acc.2, ev.warningTypeId ≠ rid) →
      ∀ ev ∈ (rules.foldl (processRule st now hour) acc).2, ev.warningTypeId ≠ rid := by
  intro rules
  induction rules with
  | nil => intro acc _ _ _ hacc ev hev; exact hacc ev hev
  | cons w rules ih =>
      intro acc hfind hrecent hlen hacc
      rw [List.foldl_cons]
      rw [List.length_cons] at hlen
      by_cases hw : w.id = rid
      · have hcool : isWarningOnCooldown acc.1 w.id now = true := by
          rw [hw]
          obtain ⟨e, he, heid, helapsed⟩ := hrecent
          exact isWarningOnCooldown_of_recent acc.1 rid now wt e hfind he heid helapsed
        have hstep : processRule st now hour acc w = acc := by
          unfold processRule
          rw [if_pos hcool]
        rw [hstep]
        exact ih acc hfind hrecent (by omega) hacc
      · rcases processRule_cases st now hour acc w with hstep | ⟨v, _, _, _, hstep⟩
        · rw [hstep]
          exact ih acc hfind hrecent (by omega) hacc
        · rw [hstep]
          obtain ⟨e, he, heid, helapsed⟩ := hrecent
          have hnotrim : (addWarningToHistory acc.1
              (mkWarningInstance w st now v)).warningHistory =
              mkWarningInstance w st now v :: acc.1.warningHistory := by
            rw [addWarningToHistory_history]
            exact List.take_of_length_le (by simp; omega)
          refine ih (addWarningToHistory acc.1 (mkWarningInstance w st now v),
              acc.2 ++ [mkWarningInstance w st now v]) ?_ ?_ ?_ ?_
          · show getWarningTypeById (addWarningToHistory acc.1 _) rid = some wt
            unfold getWarningTypeById at hfind ⊢
            rw [(addWarningToHistory_frame acc.1 _).2.1]
            exact hfind
          · exact ⟨e, by rw [hnotrim]; exact List.mem_cons_of_mem _ he, heid, helapsed⟩
          · rw [hnotrim, (addWarningToHistory_frame acc.1 _).1]
            simp only [List.length_cons]
            omega
          · intro ev hev
            rcases List.mem_append.mp hev with h | h
            · exact hacc ev h
            · rw [List.mem_singleton.mp h]
              exact hw

/-- Claim C3 counterexample: rule r fired at T = 0 with a 60-minute
cooldown, yet an evaluation only 10 minutes later (now = 600000 ms) emits an
event for r again — rule q fires first and its insertion evicts r's trigger
record from the one-slot history, so r's cooldown scan finds nothing. -/
theorem C3_counterexample :
    (∃ e ∈ cfgC3.warningHistory, e.warningTypeId = "r" ∧ e.timestamp = 0) ∧
    ((600000 : ℚ) - 0) / (1000 * 60) < 60 ∧
    (∃ ev ∈ (checkWarnings cfgC3 [("battery_soc", 40)] 600000 12).2,
      ev.warningTypeId = "r" ∧ ev.timestamp = 600000) := by
  with_unfolding_all decide

/-- Claim C3 (amended): a rule with no prior trigger is never on cooldown; an
unresolvable rule id is fail-closed (treated as on cooldown); any history
entry still inside the cooldown window keeps the rule on cooldown, and as
long as the trigger record survives in the bounded history — guaranteed when
the history has headroom for the evaluation's insertions — no evaluation
before the window expires emits an event for the rule (it can be evicted by
other warnings once the cap is exceeded, re-arming the rule early); once the
window has elapsed (here at T+61 min) the rule may fire again. -/
theorem C3_cooldown_amended :
    (∀ (config : WarningConfig) (id : String) (now : ℤ) (wt : WarningType),
      getWarningTypeById config id = some wt →
      config.warningHistory.filter (fun w => w.warningTypeId = id) = [] →
      isWarningOnCooldown config id now = false) ∧
    (∀ (config : WarningConfig) (id : String) (now : ℤ),
      getWarningTypeById config id = none → isWarningOnCooldown config id now = true) ∧
    (∀ (config : WarningConfig) (id : String) (now : ℤ) (wt : WarningType)
        (e : WarningEvent),
      getWarningTypeById config id = some wt → e ∈ config.warningHistory →
      e.warningTypeId = id →
      (now - e.timestamp : ℚ) / (1000 * 60) < wt.cooldownMinutes →
      isWarningOnCooldown config id now = true) ∧
    (∀ (config : WarningConfig) (st : SystemState) (now : ℤ) (hour : ℕ)
        (rid : String) (wt : WarningType) (e : WarningEvent),
      getWarningTypeById config rid = some wt → e ∈ config.warningHistory →
      e.warningTypeId = rid →
      (now - e.timestamp : ℚ) / (1000 * 60) < wt.cooldownMinutes →
      config.warningHistory.length +
          (config.warningTypes.filter (fun w => w.enabled)).length ≤
        config.maxHistoryItems →
      ∀ ev ∈ (checkWarnings config st now hour).2, ev.warningTypeId ≠ rid) ∧
    (∃ ev ∈ (checkWarnings cfgC3e [("battery_soc", 40)] 3660000 12).2,
      ev.warningTypeId = "r") := by
  refine ⟨?_, ?_, ?_, ?_, ?_⟩
  · intro config id now wt hwt hfil
    unfold isWarningOnCooldown
    rw [hwt, hfil]
    rfl
  · intro config id now hwt
    unfold isWarningOnCooldown
    rw [hwt]
  · intro config id now wt e hwt he hid helapsed
    exact isWarningOnCooldown_of_recent config id now wt e hwt he hid helapsed
  · intro config st now hour rid wt e hwt he hid helapsed hroom
    unfold checkWarnings
    split
    · intro ev hev
      cases hev
    · exact foldl_processRule_no_refire st now hour rid wt
        (config.warningTypes.filter (fun w => w.enabled)) (config, []) hwt
        ⟨e, he, hid, helapsed⟩ hroom (fun ev hev => absurd hev (List.not_mem_nil ev))
  · with_unfolding_all decide

/-- Witness for C3 (amended): the fail-closed branch at a concrete config
with no rules — an unknown id reports cooldown. -/
theorem C3_cooldown_amended_witness :
    getWarningTypeById defaultWarningConfig "ghost" = none ∧
    isWarningOnCooldown defaultWarningConfig "ghost" 5 = true :=
  ⟨rfl, C3_cooldown_amended.2.1 defaultWarningConfig "ghost" 5 rfl⟩

/-- Claim C8 counterexample: at local hour 18 the daytime window check
(`hour >= 8 && hour <= 18`) still passes, so a daytime-conditioned rule whose
condition holds is evaluated and emits a warning event — it is not skipped. -/
theorem C8_counterexample :
    isDaytime 18 = true ∧
    (∃ ev ∈ (checkWarnings cfgC8 [("battery_soc", 10)] 1000 18).2,
      ev.warningTypeId = "d") := by
  decide

/-- Claim C8 (amended): a daytime-conditioned rule is skipped exactly when
the local hour is outside the inclusive window [8,18]: outside it (hour < 8
or hour > 18) no event for such a rule is ever emitted, while at hour 18 the
rule is still evaluated and can fire (and 7 and 19 are outside). -/
theorem C8_daytime_amended :
    (∀ (config : WarningConfig) (st : SystemState) (now : ℤ) (hour : ℕ)
        (rid : String),
      (hour < 8 ∨ 18 < hour) →
      (∀ w ∈ config.warningTypes, w.id = rid → w.timeCondition = some "daytime") →
      ∀ ev ∈ (checkWarnings config st now hour).2, ev.warningTypeId ≠ rid) ∧
    isDaytime 18 = true ∧ isDaytime 7 = false ∧ isDaytime 19 = false ∧
    (∃ ev ∈ (checkWarnings cfgC8 [("battery_soc", 10)] 1000 18).2,
      ev.warningTypeId = "d") := by
  refine ⟨?_, rfl, rfl, rfl, by decide⟩
  intro config st now hour rid hhour hrules ev hev
  unfold checkWarnings at hev
  split at hev
  · cases hev
  · rcases mem_foldl_processRule st now hour _ (config, []) ev hev with h | ⟨w, hw, hid, hday⟩
    · cases h
    · intro heq
      have hwmem : w ∈ config.warningTypes := (List.mem_filter.mp hw).1
      have htc : w.timeCondition = some "daytime" := hrules w hwmem (by rw [← hid, heq])
      have hdt : isDaytime hour = true := hday htc
      have : 8 ≤ hour ∧ hour ≤ 18 := by
        have := of_decide_eq_true hdt
        exact this
      omega

/-- Witness for C8 (amended): at hour 19 the daytime rule of `cfgC8` emits
nothing even though its condition holds. -/
theorem C8_daytime_amended_witness :
    ((19 : ℕ) < 8 ∨ 18 < (19 : ℕ)) ∧
    (∀ ev ∈ (checkWarnings cfgC8 [("battery_soc", 10)] 1000 19).2,
      ev.warningTypeId ≠ "d") :=
  ⟨Or.inr (by norm_num),
    C8_daytime_amended.1 cfgC8 [("battery_soc", 10)] 1000 19 "d"
      (Or.inr (by norm_num)) (by decide)⟩

end SolarAutopilot

